import Mathlib

/-!
# Verification of the attendance-system backend (`src/backend/index.js`)

Shallow embedding of the eight CRUD handlers of the Express + PostgreSQL
backend.  The two tables are modelled as lists of rows together with the
serial-sequence counters that generate primary keys.  Each SQL statement
issued by the code is embedded as a pure function on the database state,
and each Express handler as a function from the request, the state and an
optional injected store failure (the `catch (err)` case) to the list of
responses it sends, the new state, the log output and the number of
queries it issued.
-/

namespace AttendanceSystem

/-- A row of the `students` table: `student_id` is the generated primary
key; `name` and `roll_number` are text columns, `none` standing for SQL
`NULL` (the handlers never validate presence, so `NULL` can be stored). -/
structure Student where
  student_id : Nat
  name : Option String
  roll_number : Option String
deriving Repr, DecidableEq

/-- A row of the `attendance` table: `attendance_id` is the generated
primary key, `student_id` the foreign key into `students`, `date` an
ISO-format date string and `status` a free-text column. -/
structure AttendanceRecord where
  attendance_id : Nat
  student_id : Nat
  date : String
  status : Option String
deriving Repr, DecidableEq

/-- A row of the result set of the join query issued by `GET /attendance`:
`SELECT a.attendance_id, s.name, s.roll_number, a.date, a.status`. -/
structure JoinedRow where
  attendance_id : Nat
  name : Option String
  roll_number : Option String
  date : String
  status : Option String
deriving Repr, DecidableEq

/-- The state of the relational store: the two tables plus the serial
sequences that generate the next primary-key values. -/
structure DB where
  students : List Student
  attendance : List AttendanceRecord
  nextStudentId : Nat
  nextAttendanceId : Nat
deriving Repr, DecidableEq

/-- Well-formedness of the store, guaranteed by the primary-key
constraints of the schema: no two rows of a table share a primary key. -/
def DB.WF (db : DB) : Prop :=
  (db.students.map Student.student_id).Nodup ∧
  (db.attendance.map AttendanceRecord.attendance_id).Nodup

instance (db : DB) : Decidable db.WF := by
  unfold DB.WF; infer_instance

/-- The JSON bodies the backend serializes with `res.json` / `res.send`. -/
inductive Body where
  | text (s : String)
  | studentList (rows : List Student)
  | studentRow (row : Student)
  | joinedList (rows : List JoinedRow)
  | attendanceRow (row : AttendanceRecord)
  | deletedStudent (message : String) (deleted : Student)
  | deletedAttendance (message : String) (deleted : AttendanceRecord)
  | jsonError (error : String)
deriving Repr, DecidableEq

/-- An HTTP response: the status code (200 by default for `res.json`) and
the serialized body. -/
structure Response where
  statusCode : Nat
  body : Body
deriving Repr, DecidableEq

/-- `SELECT * FROM students ORDER BY student_id ASC` orders rows by this
relation. -/
def studentIdLe (a b : Student) : Prop :=
  a.student_id ≤ b.student_id

instance : DecidableRel studentIdLe := fun a b =>
  Nat.decLe a.student_id b.student_id

instance : IsTotal Student studentIdLe :=
  ⟨fun a b => Nat.le_total a.student_id b.student_id⟩

instance : IsTrans Student studentIdLe :=
  ⟨fun _ _ _ => Nat.le_trans⟩

/-- Lexicographic comparison of character lists by code point; on
ISO-format date strings it agrees with the chronological order `ORDER BY
date` uses. -/
def charListLeb : List Char → List Char → Bool
  | [], _ => true
  | _ :: _, [] => false
  | c :: cs, d :: ds =>
    if c.toNat < d.toNat then true
    else if d.toNat < c.toNat then false
    else charListLeb cs ds

/-- `a ≤ b` on date strings. -/
def dateLeb (a b : String) : Bool :=
  charListLeb a.data b.data

theorem charListLeb_total :
    ∀ a b, charListLeb a b = true ∨ charListLeb b a = true
  | [], _ => Or.inl rfl
  | _ :: _, [] => Or.inr rfl
  | c :: cs, d :: ds => by
    rcases Nat.lt_trichotomy c.toNat d.toNat with h | h | h
    · exact Or.inl (by simp [charListLeb, h])
    · rcases charListLeb_total cs ds with ih | ih
      · exact Or.inl (by simp [charListLeb, h, ih])
      · exact Or.inr (by simp [charListLeb, h.symm, ih])
    · exact Or.inr (by simp [charListLeb, h])

theorem charListLeb_trans :
    ∀ a b c, charListLeb a b = true → charListLeb b c = true →
      charListLeb a c = true
  | [], _, _, _, _ => rfl
  | _ :: _, [], _, h, _ => by simp [charListLeb] at h
  | _ :: _, _ :: _, [], _, h => by simp [charListLeb] at h
  | x :: xs, y :: ys, z :: zs, h1, h2 => by
    simp only [charListLeb] at h1 h2 ⊢
    by_cases hxy : x.toNat < y.toNat
    · by_cases hyz : y.toNat < z.toNat
      · simp [Nat.lt_trans hxy hyz]
      · by_cases hzy : z.toNat < y.toNat
        · simp [hyz, hzy] at h2
        · have hxz : x.toNat < z.toNat := by omega
          simp [hxz]
    · by_cases hyx : y.toNat < x.toNat
      · simp [hxy, hyx] at h1
      · by_cases hyz : y.toNat < z.toNat
        · have hxz : x.toNat < z.toNat := by omega
          simp [hxz]
        · by_cases hzy : z.toNat < y.toNat
          · simp [hyz, hzy] at h2
          · have h3 : ¬ x.toNat < z.toNat := by omega
            have h4 : ¬ z.toNat < x.toNat := by omega
            simp only [hxy, hyx, if_false, if_neg, not_false_eq_true] at h1
            simp only [hyz, hzy, if_false, if_neg, not_false_eq_true] at h2
            simp only [h3, h4, if_false, if_neg, not_false_eq_true]
            exact charListLeb_trans xs ys zs h1 h2

/-- `ORDER BY a.date DESC` orders joined rows by this relation. -/
def dateGe (a b : JoinedRow) : Prop :=
  dateLeb b.date a.date = true

instance : DecidableRel dateGe := fun a b =>
  Bool.decEq (dateLeb b.date a.date) true

instance : IsTotal JoinedRow dateGe :=
  ⟨fun a b => Or.symm (charListLeb_total a.date.data b.date.data)⟩

instance : IsTrans JoinedRow dateGe :=
  ⟨fun _ b _ h h2 => charListLeb_trans _ b.date.data _ h2 h⟩

/-- `SELECT * FROM students ORDER BY student_id ASC`. -/
def sqlSelectStudents (db : DB) : List Student :=
  List.insertionSort studentIdLe db.students

/-- The unsorted result of joining `attendance` to `students` on
`student_id` and projecting each joined pair to the selected columns.
`find?` resolves the (unique, by the primary key) matching student. -/
def joinRows (db : DB) : List JoinedRow :=
  db.attendance.filterMap fun a =>
    (db.students.find? fun s => s.student_id == a.student_id).map fun s =>
      ⟨a.attendance_id, s.name, s.roll_number, a.date, a.status⟩

/-- `SELECT a.attendance_id, s.name, s.roll_number, a.date, a.status FROM
attendance a JOIN students s ON a.student_id = s.student_id ORDER BY
a.date DESC`. -/
def sqlSelectAttendance (db : DB) : List JoinedRow :=
  List.insertionSort dateGe (joinRows db)

/-- `INSERT INTO students (name, roll_number) VALUES ($1, $2)
RETURNING *`: the serial sequence supplies the new primary key. -/
def sqlInsertStudent (name roll_number : Option String) (db : DB) :
    Student × DB :=
  let row : Student := ⟨db.nextStudentId, name, roll_number⟩
  (row, { db with
            students := db.students ++ [row],
            nextStudentId := db.nextStudentId + 1 })

/-- `INSERT INTO attendance (student_id, date, status) VALUES ($1, $2, $3)
RETURNING *`.

Modelled from the spec: the schema itself is not in the repository; per
the spec, "every AttendanceRecord's `student_id` must reference an
existing Student at insert time (enforced by the store's foreign-key
constraint, not application logic)", so the insert fails (the statement
raises a referential-integrity error) exactly when no student row carries
the given `student_id`. -/
def sqlInsertAttendance (student_id : Nat) (date : String)
    (status : Option String) (db : DB) :
    Option (AttendanceRecord × DB) :=
  if db.students.any (fun s => s.student_id == student_id) then
    let row : AttendanceRecord := ⟨db.nextAttendanceId, student_id, date, status⟩
    some (row, { db with
                   attendance := db.attendance ++ [row],
                   nextAttendanceId := db.nextAttendanceId + 1 })
  else none

/-- `UPDATE students SET name = $1, roll_number = $2 WHERE student_id = $3
RETURNING *`: returns the `RETURNING` rows (whose length is `rowCount`)
and the updated table. -/
def sqlUpdateStudent (name roll_number : Option String) (id : Nat)
    (db : DB) : List Student × DB :=
  ((db.students.filter fun s => s.student_id == id).map
     (fun s => { s with name := name, roll_number := roll_number }),
   { db with
       students := db.students.map fun s =>
         if s.student_id == id then
           { s with name := name, roll_number := roll_number }
         else s })

/-- `UPDATE attendance SET status = $1 WHERE attendance_id = $2
RETURNING *`. -/
def sqlUpdateAttendance (status : Option String) (id : Nat) (db : DB) :
    List AttendanceRecord × DB :=
  ((db.attendance.filter fun a => a.attendance_id == id).map
     (fun a => { a with status := status }),
   { db with
       attendance := db.attendance.map fun a =>
         if a.attendance_id == id then { a with status := status } else a })

/-- `DELETE FROM students WHERE student_id = $1 RETURNING *`.

Modelled from the spec: the schema is not in the repository; the spec
leaves the foreign-key delete behaviour to "the store's default
foreign-key behavior" (PostgreSQL `NO ACTION`), so the statement raises a
referential-integrity error (`none`) when an attendance row still
references a student row being deleted, and otherwise deletes every
matching row and returns them. -/
def sqlDeleteStudent (id : Nat) (db : DB) : Option (List Student × DB) :=
  if (db.students.any fun s => s.student_id == id) &&
     (db.attendance.any fun a => a.student_id == id) then
    none
  else
    some (db.students.filter fun s => s.student_id == id,
          { db with students := db.students.filter fun s => !(s.student_id == id) })

/-- `DELETE FROM attendance WHERE attendance_id = $1 RETURNING *`. -/
def sqlDeleteAttendance (id : Nat) (db : DB) : List AttendanceRecord × DB :=
  (db.attendance.filter fun a => a.attendance_id == id,
   { db with attendance := db.attendance.filter fun a => !(a.attendance_id == id) })

/-- The JSON body of `POST /students` and `PUT /students/:id`:
`const { name, roll_number } = req.body` — a missing field destructures
to `undefined`, which the database client binds as `NULL` (`none`). -/
structure StudentBody where
  name : Option String
  roll_number : Option String
deriving Repr, DecidableEq

/-- The eight CRUD requests of the API, with the path parameter and the
destructured body fields each handler reads. -/
inductive Request where
  | getStudents
  | getAttendance
  | postStudents (body : StudentBody)
  | postAttendance (student_id : Nat) (date : String) (status : Option String)
  | putStudents (id : Nat) (body : StudentBody)
  | putAttendance (id : Nat) (status : Option String)
  | deleteStudents (id : Nat)
  | deleteAttendance (id : Nat)
deriving Repr, DecidableEq

/-- What one execution of a handler did: the responses it sent (in
order), the resulting store state, the `console.error` log output, and
the number of queries it issued against the pool. -/
structure HandlerResult where
  sent : List Response
  db : DB
  log : List String
  queriesIssued : Nat
deriving Repr, DecidableEq

/-- The generic error message of each handler's `catch` branch. -/
def dbErrorMsg : Request → String
  | .getStudents => "Database query failed"
  | .getAttendance => "Database query failed"
  | .postStudents _ => "Failed to add student"
  | .postAttendance _ _ _ => "Failed to mark attendance"
  | .putStudents _ _ => "Failed to update student"
  | .putAttendance _ _ => "Failed to update attendance"
  | .deleteStudents _ => "Failed to delete student"
  | .deleteAttendance _ => "Failed to delete attendance"

/-- The PostgreSQL error message produced by an insert that violates the
foreign key from `attendance.student_id` to `students`. -/
def fkInsertCause : String :=
  "insert or update on table \"attendance\" violates foreign key constraint"

/-- The PostgreSQL error message produced by deleting a student row that
attendance rows still reference. -/
def fkDeleteCause : String :=
  "update or delete on table \"students\" violates foreign key constraint"

/-- One execution of the Express handler registered for `req`, starting
from store state `db`.  `err = some cause` injects a store failure into
the single `pool.query` call (connection loss, malformed query, …): the
query throws `cause` before taking effect, and the `catch` branch logs it
and answers 500.  `err = none` lets the query run; referential-integrity
violations (`sqlInsertAttendance` / `sqlDeleteStudent` returning `none`)
also throw into the `catch` branch. -/
def handle (req : Request) (db : DB) (err : Option String) : HandlerResult :=
  match err with
  | some cause => ⟨[⟨500, .jsonError (dbErrorMsg req)⟩], db, [cause], 1⟩
  | none =>
    match req with
    | .getStudents =>
        ⟨[⟨200, .studentList (sqlSelectStudents db)⟩], db, [], 1⟩
    | .getAttendance =>
        ⟨[⟨200, .joinedList (sqlSelectAttendance db)⟩], db, [], 1⟩
    | .postStudents b =>
        match sqlInsertStudent b.name b.roll_number db with
        | (row, db2) => ⟨[⟨201, .studentRow row⟩], db2, [], 1⟩
    | .postAttendance sid date st =>
        match sqlInsertAttendance sid date st db with
        | some (row, db2) => ⟨[⟨201, .attendanceRow row⟩], db2, [], 1⟩
        | none =>
            ⟨[⟨500, .jsonError "Failed to mark attendance"⟩], db, [fkInsertCause], 1⟩
    | .putStudents id b =>
        match sqlUpdateStudent b.name b.roll_number id db with
        | ([], db2) => ⟨[⟨404, .jsonError "Student not found"⟩], db2, [], 1⟩
        | (row :: _, db2) => ⟨[⟨200, .studentRow row⟩], db2, [], 1⟩
    | .putAttendance id st =>
        match sqlUpdateAttendance st id db with
        | ([], db2) => ⟨[⟨404, .jsonError "Attendance record not found"⟩], db2, [], 1⟩
        | (row :: _, db2) => ⟨[⟨200, .attendanceRow row⟩], db2, [], 1⟩
    | .deleteStudents id =>
        match sqlDeleteStudent id db with
        | none =>
            ⟨[⟨500, .jsonError "Failed to delete student"⟩], db, [fkDeleteCause], 1⟩
        | some ([], db2) =>
            ⟨[⟨404, .jsonError "Student not found"⟩], db2, [], 1⟩
        | some (row :: _, db2) =>
            ⟨[⟨200, .deletedStudent "Student deleted successfully" row⟩], db2, [], 1⟩
    | .deleteAttendance id =>
        match sqlDeleteAttendance id db with
        | ([], db2) =>
            ⟨[⟨404, .jsonError "Attendance record not found"⟩], db2, [], 1⟩
        | (row :: _, db2) =>
            ⟨[⟨200, .deletedAttendance "Attendance deleted successfully" row⟩], db2, [], 1⟩

/-- Default row used to state index-wise frame properties via `getD`. -/
def defaultRecord : AttendanceRecord :=
  ⟨0, 0, "", none⟩

/-- A concrete store used to witness the contract theorems: three
students, two attendance records (on 2024-01-01 and 2024-02-01), and the
serial sequences positioned after the existing keys. -/
def dbEx : DB :=
  ⟨[⟨1, some "Amit", some "101"⟩, ⟨2, some "Bela", some "102"⟩,
    ⟨3, some "Chandra", some "103"⟩],
   [⟨1, 1, "2024-01-01", some "present"⟩, ⟨2, 2, "2024-02-01", some "absent"⟩],
   4, 3⟩

/-- C7: for every operation of the API, whenever the store query raises
an error, the response is exactly 500 with a generic JSON error body that
does not depend on (hence cannot include) the underlying cause, the cause
is logged server-side via `console.error`, and the query is issued
exactly once (never retried). -/
theorem storeFailure_uniform_500 (req : Request) (db : DB) (cause : String) :
    (handle req db (some cause)).sent =
      [⟨500, .jsonError (dbErrorMsg req)⟩] ∧
    (∀ c2 : String,
      (handle req db (some c2)).sent = (handle req db (some cause)).sent) ∧
    (handle req db (some cause)).log = [cause] ∧
    (handle req db (some cause)).queriesIssued = 1 :=
  ⟨rfl, fun _ => rfl, rfl, rfl⟩

/-- C8: every execution of any of the eight CRUD handlers — on query
success, on zero matched rows, and on a thrown store error — sends
exactly one HTTP response. -/
theorem one_response_per_request (req : Request) (db : DB)
    (err : Option String) : (handle req db err).sent.length = 1 := by
  cases err with
  | some c => rfl
  | none =>
    cases req with
    | getStudents => rfl
    | getAttendance => rfl
    | postStudents b => rfl
    | postAttendance sid date st =>
      cases h : sqlInsertAttendance sid date st db with
      | none => simp [handle, h]
      | some p => cases p with | mk row db2 => simp [handle, h]
    | putStudents id b =>
      cases h : db.students.filter (fun s => s.student_id == id) <;>
        simp [handle, sqlUpdateStudent, h]
    | putAttendance id st =>
      cases h : db.attendance.filter (fun a => a.attendance_id == id) <;>
        simp [handle, sqlUpdateAttendance, h]
    | deleteStudents id =>
      by_cases hfk : ((db.students.any fun s => s.student_id == id) &&
          (db.attendance.any fun a => a.student_id == id)) = true
      · simp [handle, sqlDeleteStudent, hfk]
      · cases h : db.students.filter (fun s => s.student_id == id) <;>
          simp [handle, sqlDeleteStudent, hfk, h]
    | deleteAttendance id =>
      cases h : db.attendance.filter (fun a => a.attendance_id == id) <;>
        simp [handle, sqlDeleteAttendance, h]

/-- C9: the two read-only handlers leave both tables (and the key
sequences) unchanged on every outcome, and each issues exactly one query
(the single `SELECT`) — no insert, update or delete is performed. -/
theorem get_handlers_frame (db : DB) (err : Option String) :
    (handle .getStudents db err).db = db ∧
    (handle .getStudents db err).queriesIssued = 1 ∧
    (handle .getAttendance db err).db = db ∧
    (handle .getAttendance db err).queriesIssued = 1 := by
  cases err <;> exact ⟨rfl, rfl, rfl, rfl⟩

/-- C1: `PUT /students/:id` answers 404 with a JSON error body whenever
no row of `students` carries the path id, regardless of the request body;
when such a row exists and the query succeeds, it answers 200 with the
updated row. -/
theorem putStudents_contract (db : DB) (id : Nat) (b : StudentBody) :
    ((∀ s ∈ db.students, s.student_id ≠ id) →
      (handle (.putStudents id b) db none).sent =
        [⟨404, .jsonError "Student not found"⟩]) ∧
    ((∃ s ∈ db.students, s.student_id = id) →
      (handle (.putStudents id b) db none).sent =
        [⟨200, .studentRow ⟨id, b.name, b.roll_number⟩⟩]) := by
  constructor
  · intro h
    have hf : db.students.filter (fun s => s.student_id == id) = [] := by
      rw [List.filter_eq_nil_iff]
      intro s hs
      simpa using h s hs
    simp [handle, sqlUpdateStudent, hf]
  · rintro ⟨s, hs, hid⟩
    rcases hfe : db.students.filter (fun t => t.student_id == id) with
      _ | ⟨t, rest⟩
    · exfalso
      have : s ∈ db.students.filter (fun t => t.student_id == id) :=
        List.mem_filter.mpr ⟨hs, by simpa using hid⟩
      rw [hfe] at this
      simp at this
    · have ht : t ∈ db.students.filter (fun u => u.student_id == id) := by
        rw [hfe]; exact List.mem_cons_self t rest
      have htid : t.student_id = id := by
        simpa using (List.mem_filter.mp ht).2
      simp [handle, sqlUpdateStudent, hfe, htid]

/-- C1 witness: in `dbEx`, id 9 matches no student and yields the 404
error, while id 1 exists and yields 200 with the updated row. -/
theorem putStudents_contract_witness :
    (handle (.putStudents 9 ⟨some "X", some "9"⟩) dbEx none).sent =
      [⟨404, .jsonError "Student not found"⟩] ∧
    (handle (.putStudents 1 ⟨some "X", some "9"⟩) dbEx none).sent =
      [⟨200, .studentRow ⟨1, some "X", some "9"⟩⟩] :=
  ⟨(putStudents_contract dbEx 9 ⟨some "X", some "9"⟩).1 (by decide),
   (putStudents_contract dbEx 1 ⟨some "X", some "9"⟩).2 (by decide)⟩

/-- C2: `POST /attendance` answers 500 (the foreign-key violation lands
in the `catch` branch) whenever the body's `student_id` matches no
student row, and otherwise answers 201 with the inserted record, which is
appended to the `attendance` table. -/
theorem postAttendance_contract (db : DB) (sid : Nat) (date : String)
    (st : Option String) :
    ((∀ s ∈ db.students, s.student_id ≠ sid) →
      (handle (.postAttendance sid date st) db none).sent =
        [⟨500, .jsonError "Failed to mark attendance"⟩]) ∧
    ((∃ s ∈ db.students, s.student_id = sid) →
      (handle (.postAttendance sid date st) db none).sent =
        [⟨201, .attendanceRow ⟨db.nextAttendanceId, sid, date, st⟩⟩] ∧
      (handle (.postAttendance sid date st) db none).db.attendance =
        db.attendance ++ [⟨db.nextAttendanceId, sid, date, st⟩]) := by
  constructor
  · intro h
    have ha : (db.students.any fun s => s.student_id == sid) = false := by
      rw [Bool.eq_false_iff]
      intro hc
      rcases List.any_eq_true.mp hc with ⟨s, hs, hps⟩
      exact h s hs (by simpa using hps)
    simp [handle, sqlInsertAttendance, ha]
  · rintro ⟨s, hs, hid⟩
    have ha : (db.students.any fun s => s.student_id == sid) = true :=
      List.any_eq_true.mpr ⟨s, hs, by simpa using hid⟩
    constructor <;> simp [handle, sqlInsertAttendance, ha]

/-- C2 witness: in `dbEx`, student 7 does not exist and the insert
answers 500, while student 2 exists and the insert answers 201 with the
new record. -/
theorem postAttendance_contract_witness :
    (handle (.postAttendance 7 "2024-03-01" (some "present")) dbEx none).sent =
      [⟨500, .jsonError "Failed to mark attendance"⟩] ∧
    (handle (.postAttendance 2 "2024-03-01" (some "present")) dbEx none).sent =
      [⟨201, .attendanceRow ⟨3, 2, "2024-03-01", some "present"⟩⟩] :=
  ⟨(postAttendance_contract dbEx 7 "2024-03-01" (some "present")).1 (by decide),
   ((postAttendance_contract dbEx 2 "2024-03-01" (some "present")).2
      (by decide)).1⟩

/-- C6: `GET /students` answers 200 with a permutation of the `students`
table sorted by `student_id` ascending, and answers 500 with the generic
JSON error body when the query fails. -/
theorem getStudents_contract (db : DB) :
    (∃ L, (handle .getStudents db none).sent = [⟨200, .studentList L⟩] ∧
      L.Perm db.students ∧ List.Sorted studentIdLe L) ∧
    ∀ cause, (handle .getStudents db (some cause)).sent =
      [⟨500, .jsonError "Database query failed"⟩] :=
  ⟨⟨sqlSelectStudents db, rfl,
     List.perm_insertionSort studentIdLe db.students,
     List.sorted_insertionSort studentIdLe db.students⟩,
   fun _ => rfl⟩

/-- C10: `PUT /students/:id` performs no input validation: it never
answers 400 for any body, it issues the single full-field update query,
and the table afterwards holds what the body supplied — a missing field
(`none`, the `NULL` the client binds for `undefined`) overwrites the
stored value. -/
theorem putStudents_no_validation (db : DB) (id : Nat) (b : StudentBody) :
    (∀ err : Option String,
      ∀ resp ∈ (handle (.putStudents id b) db err).sent,
        resp.statusCode ≠ 400) ∧
    (handle (.putStudents id b) db none).queriesIssued = 1 ∧
    (handle (.putStudents id b) db none).db.students =
      db.students.map (fun s =>
        if s.student_id == id then
          { s with name := b.name, roll_number := b.roll_number }
        else s) := by
  refine ⟨?_, ?_, ?_⟩
  · intro err resp hr
    cases err with
    | some c =>
      simp only [handle, List.mem_singleton] at hr
      subst hr; simp
    | none =>
      cases h : db.students.filter (fun s => s.student_id == id) with
      | nil =>
        simp only [handle, sqlUpdateStudent, h, List.map_nil,
          List.mem_singleton] at hr
        subst hr; simp
      | cons t rest =>
        simp only [handle, sqlUpdateStudent, h, List.map_cons,
          List.mem_singleton] at hr
        subst hr; simp
  · cases h : db.students.filter (fun s => s.student_id == id) <;>
      simp [handle, sqlUpdateStudent, h]
  · cases h : db.students.filter (fun s => s.student_id == id) <;>
      simp [handle, sqlUpdateStudent, h]

/-- C10 witness: updating student 1 of `dbEx` with an empty body answers
with status 200 (never 400) and overwrites both `name` and `roll_number`
with `NULL`. -/
theorem putStudents_no_validation_witness :
    (⟨200, .studentRow ⟨1, none, none⟩⟩ : Response) ∈
      (handle (.putStudents 1 ⟨none, none⟩) dbEx none).sent ∧
    (⟨200, .studentRow ⟨1, none, none⟩⟩ : Response).statusCode ≠ 400 ∧
    (handle (.putStudents 1 ⟨none, none⟩) dbEx none).db.students =
      [⟨1, none, none⟩, ⟨2, some "Bela", some "102"⟩,
       ⟨3, some "Chandra", some "103"⟩] :=
  ⟨by decide,
   (putStudents_no_validation dbEx 1 ⟨none, none⟩).1 none _ (by decide),
   ((putStudents_no_validation dbEx 1 ⟨none, none⟩).2.2).trans (by decide)⟩

/-- C3: `PUT /attendance/:id` with a matching row modifies only the
`status` column: `students` is untouched, the `attendance` table keeps
its length, every row keeps its `student_id`, `date` and
`attendance_id`, and every row whose id differs from the path id is
entirely unchanged. -/
theorem putAttendance_frame (db : DB) (id : Nat) (st : Option String)
    (_hex : ∃ a ∈ db.attendance, a.attendance_id = id) :
    (handle (.putAttendance id st) db none).db.students = db.students ∧
    (handle (.putAttendance id st) db none).db.attendance.length =
      db.attendance.length ∧
    (∀ i : Nat,
      ((handle (.putAttendance id st) db none).db.attendance.getD i
          defaultRecord).student_id =
        (db.attendance.getD i defaultRecord).student_id ∧
      ((handle (.putAttendance id st) db none).db.attendance.getD i
          defaultRecord).date =
        (db.attendance.getD i defaultRecord).date ∧
      ((handle (.putAttendance id st) db none).db.attendance.getD i
          defaultRecord).attendance_id =
        (db.attendance.getD i defaultRecord).attendance_id) ∧
    (∀ i : Nat,
      (db.attendance.getD i defaultRecord).attendance_id ≠ id →
        (handle (.putAttendance id st) db none).db.attendance.getD i
          defaultRecord = db.attendance.getD i defaultRecord) := by
  have hdb : (handle (.putAttendance id st) db none).db =
      { db with attendance := db.attendance.map fun a =>
          if a.attendance_id == id then { a with status := st } else a } := by
    cases h : db.attendance.filter (fun a => a.attendance_id == id) <;>
      simp [handle, sqlUpdateAttendance, h]
  rw [hdb]
  refine ⟨rfl, List.length_map _ _, fun i => ?_, fun i hi => ?_⟩
  · rw [List.getD_eq_getElem?_getD, List.getD_eq_getElem?_getD,
      List.getElem?_map]
    cases db.attendance[i]? with
    | none => exact ⟨rfl, rfl, rfl⟩
    | some a =>
      by_cases h : a.attendance_id = id <;> simp [h]
  · rw [List.getD_eq_getElem?_getD, List.getD_eq_getElem?_getD,
      List.getElem?_map] at *
    cases hq : db.attendance[i]? with
    | none => simp [hq]
    | some a =>
      rw [hq] at hi
      have h : ¬ a.attendance_id = id := by
        simpa using hi
      simp [hq, h]

/-- C3 witness: in `dbEx`, record 1 exists; updating its status to
"absent" leaves `students`, both rows' `student_id`, `date` and
`attendance_id`, and the untouched row 2 unchanged (checked at the first
two indices). -/
theorem putAttendance_frame_witness :
    (∃ a ∈ dbEx.attendance, a.attendance_id = 1) ∧
    (handle (.putAttendance 1 (some "absent")) dbEx none).db.students =
      dbEx.students ∧
    ((handle (.putAttendance 1 (some "absent")) dbEx none).db.attendance.getD
        0 defaultRecord).date = (dbEx.attendance.getD 0 defaultRecord).date ∧
    (handle (.putAttendance 1 (some "absent")) dbEx none).db.attendance.getD
      1 defaultRecord = dbEx.attendance.getD 1 defaultRecord :=
  ⟨by decide,
   (putAttendance_frame dbEx 1 (some "absent") (by decide)).1,
   ((putAttendance_frame dbEx 1 (some "absent") (by decide)).2.2.1 0).2.1,
   (putAttendance_frame dbEx 1 (some "absent") (by decide)).2.2.2 1
     (by decide)⟩

/-- C4: whenever `DELETE /students/:id` answers 200, a subsequent
`GET /students` over the resulting store answers with an array containing
no row whose `student_id` equals that id. -/
theorem deleteStudent_then_absent (db : DB) (id : Nat) (err : Option String)
    (h : (handle (.deleteStudents id) db err).sent.map Response.statusCode =
      [200]) :
    ∃ L, (handle .getStudents ((handle (.deleteStudents id) db err).db)
        none).sent = [⟨200, .studentList L⟩] ∧
      ∀ s ∈ L, s.student_id ≠ id := by
  cases err with
  | some c => simp [handle] at h
  | none =>
    by_cases hfk : ((db.students.any fun s => s.student_id == id) &&
        (db.attendance.any fun a => a.student_id == id)) = true
    · exfalso; simp [handle, sqlDeleteStudent, hfk] at h
    · cases hf : db.students.filter (fun s => s.student_id == id) with
      | nil => exfalso; simp [handle, sqlDeleteStudent, hfk, hf] at h
      | cons r rest =>
        have hdb : (handle (.deleteStudents id) db none).db =
            { db with students :=
                db.students.filter fun s => !(s.student_id == id) } := by
          simp [handle, sqlDeleteStudent, hfk, hf]
        refine ⟨sqlSelectStudents ((handle (.deleteStudents id) db none).db),
          rfl, ?_⟩
        intro s hs
        have hmem : s ∈ ((handle (.deleteStudents id) db none).db).students := by
          simpa [sqlSelectStudents] using hs
        rw [hdb] at hmem
        have h2 := (List.mem_filter.mp hmem).2
        simpa using h2

/-- C4 witness: deleting student 3 of `dbEx` (who has no attendance rows)
answers 200, and the subsequent student list contains no row with id 3. -/
theorem deleteStudent_then_absent_witness :
    ((handle (.deleteStudents 3) dbEx none).sent.map Response.statusCode =
      [200]) ∧
    ∃ L, (handle .getStudents ((handle (.deleteStudents 3) dbEx none).db)
        none).sent = [⟨200, .studentList L⟩] ∧
      ∀ s ∈ L, s.student_id ≠ 3 :=
  ⟨by decide, deleteStudent_then_absent dbEx 3 none (by decide)⟩

/-- C5: `GET /attendance` answers 200 with the rows obtained by joining
`attendance` to `students` on `student_id` and projecting to
`{attendance_id, name, roll_number, date, status}`, arranged in
descending `date` order (so a 2024-02-01 record precedes a 2024-01-01
one, as the witness shows on `dbEx`). -/
theorem getAttendance_contract (db : DB) (hwf : db.WF) :
    ∃ L, (handle .getAttendance db none).sent = [⟨200, .joinedList L⟩] ∧
      List.Sorted dateGe L ∧
      ∀ x, x ∈ L ↔ ∃ a ∈ db.attendance, ∃ s ∈ db.students,
        s.student_id = a.student_id ∧
        x = ⟨a.attendance_id, s.name, s.roll_number, a.date, a.status⟩ := by
  refine ⟨sqlSelectAttendance db, rfl,
    List.sorted_insertionSort dateGe (joinRows db), ?_⟩
  intro x
  rw [sqlSelectAttendance, List.mem_insertionSort, joinRows,
    List.mem_filterMap]
  constructor
  · rintro ⟨a, ha, hfa⟩
    rw [Option.map_eq_some'] at hfa
    rcases hfa with ⟨s, hfind, hx⟩
    exact ⟨a, ha, s, List.mem_of_find?_eq_some hfind,
      by simpa using List.find?_some hfind, hx.symm⟩
  · rintro ⟨a, ha, s, hs, hsid, hx⟩
    refine ⟨a, ha, ?_⟩
    rw [Option.map_eq_some']
    cases hfind : db.students.find? (fun t => t.student_id == a.student_id) with
    | none =>
      exfalso
      rw [List.find?_eq_none] at hfind
      exact hfind s hs (by simpa using hsid)
    | some s0 =>
      have hs0id : s0.student_id = a.student_id := by
        simpa using List.find?_some hfind
      have hss : s0 = s :=
        List.inj_on_of_nodup_map hwf.1 (List.mem_of_find?_eq_some hfind) hs
          (by rw [hs0id, hsid])
      exact ⟨s0, rfl, by rw [hss, hx]⟩

/-- C5 witness: `dbEx` is well-formed, the contract holds on it, and the
response lists the 2024-02-01 record before the 2024-01-01 one. -/
theorem getAttendance_contract_witness :
    dbEx.WF ∧
    (∃ L, (handle .getAttendance dbEx none).sent = [⟨200, .joinedList L⟩] ∧
      List.Sorted dateGe L ∧
      ∀ x, x ∈ L ↔ ∃ a ∈ dbEx.attendance, ∃ s ∈ dbEx.students,
        s.student_id = a.student_id ∧
        x = ⟨a.attendance_id, s.name, s.roll_number, a.date, a.status⟩) ∧
    (handle .getAttendance dbEx none).sent =
      [⟨200, .joinedList
        [⟨2, some "Bela", some "102", "2024-02-01", some "absent"⟩,
         ⟨1, some "Amit", some "101", "2024-01-01", some "present"⟩]⟩] :=
  ⟨by decide, getAttendance_contract dbEx (by decide), by decide⟩

end AttendanceSystem
